import Mathlib

/-!
Verification of the text2iac email-bridge pipeline, shallowly embedded from
`src/email-bridge/src/email_processor.py` and `src/email-bridge/src/email_monitor.py`.

Python strings are modelled as Lean `String`; Python's `needle in hay`
substring test is modelled by `pyContains`; `str.lower()` by `pyLower`
(all keyword phrases in the source are ASCII); `str.strip()` by `pyStrip`.
Fallible collaborators (database commits, the infrastructure API client, the
template/notification service) are modelled as `Except String`-valued
parameters: `.error msg` models the call raising an exception whose text is
`msg`. Each `try/except` of the source becomes an explicit `match` on such a
value, so every embedded operation is a total Lean function, mirroring the
fact that the corresponding Python code catches the exceptions it handles.
-/
/-- Sublist containment on character lists: `listSub needle hay` is true iff
`needle` occurs contiguously inside `hay` (Python's `needle in hay`). -/
def listSub (needle : List Char) : List Char → Bool
  | [] => needle.isEmpty
  | c :: t => needle.isPrefixOf (c :: t) || listSub needle t

/-- Python's `needle in hay` on strings. -/
def pyContains (hay needle : String) : Bool :=
  listSub needle.toList hay.toList

/-- Python's `str.lower()`; the source only lowercases ASCII keyword text. -/
def pyLower (s : String) : String :=
  String.mk (s.toList.map Char.toLower)

/-- Case-insensitive substring containment, the matching discipline the spec
describes ("case-insensitive substring search"). -/
def containsCI (hay needle : String) : Bool :=
  pyContains (pyLower hay) (pyLower needle)

/-- The closed set of email categories (`EmailType` in the source models). -/
inductive EmailType
  | outgoing
  | standard
  | auto_reply
  | bounce
  | unsubscribe
  | infra_request
deriving DecidableEq, Repr

/-- Auto-reply indicator phrases from `_determine_email_type`. -/
def autoReplyIndicators : List String :=
  ["auto-reply", "automatic reply", "auto reply", "autoreply",
   "out of office", "ooo", "vacation", "away", "annual leave",
   "automatic response", "auto response", "auto-response"]

/-- Delivery-failure phrases from `_determine_email_type`. -/
def bounceIndicators : List String :=
  ["delivery failed", "undeliverable", "returned mail"]

/-- Infrastructure-request phrases from `_determine_email_type`. -/
def infraIndicators : List String :=
  ["infra request", "infrastructure request"]

/-- `EmailProcessor._determine_email_type` (email_processor.py:185-216).
The Python loop over `auto_reply_indicators` returning on the first hit is
the same as `List.any` because every hit returns the same category. -/
def determineEmailType (subject body _sender : String)
    (_recipients : List String) : EmailType :=
  let subjectLower := pyLower subject
  let bodyLower := pyLower body
  if autoReplyIndicators.any
      (fun i => pyContains subjectLower i || pyContains bodyLower i) then
    .auto_reply
  else if bounceIndicators.any (fun t => pyContains subjectLower t) then
    .bounce
  else if pyContains bodyLower "unsubscribe" || pyContains bodyLower "opt-out" then
    .unsubscribe
  else if infraIndicators.any (fun t => pyContains subjectLower t) then
    .infra_request
  else
    .standard

/-- The classifier as the spec's claim words it: ordered first-match
case-insensitive substring rules over subject and body. Written from the
spec sentence, to be compared with `determineEmailType` (from the source). -/
def specClassify (subject body : String) : EmailType :=
  if autoReplyIndicators.any
      (fun p => containsCI subject p || containsCI body p) then
    .auto_reply
  else if bounceIndicators.any (fun p => containsCI subject p) then
    .bounce
  else if containsCI body "unsubscribe" || containsCI body "opt-out" then
    .unsubscribe
  else if infraIndicators.any (fun p => containsCI subject p) then
    .infra_request
  else
    .standard

/-- High-priority keyword bucket from `_parse_infra_request`. -/
def highTerms : List String := ["urgent", "asap", "high priority", "blocking"]

/-- Low-priority keyword bucket from `_parse_infra_request`. -/
def lowTerms : List String := ["low priority", "when you can", "not urgent"]

/-- Production-environment keyword bucket from `_parse_infra_request`. -/
def prodTerms : List String := ["prod", "production", "live"]

/-- Staging-environment keyword bucket from `_parse_infra_request`. -/
def stagingTerms : List String := ["staging", "pre-prod", "preprod"]

/-- The structured infrastructure request built by `_parse_infra_request`. -/
structure InfraRequest where
  title : String
  description : String
  requestor_email : String
  priority : String
  environment : String
deriving DecidableEq, Repr

/-- `EmailProcessor._parse_infra_request` (email_processor.py:311-350).
The Python `dict` iteration visits "high" before "low" and "production"
before "staging" (insertion order), breaking at the first matching bucket;
each term is tested as `term in body.lower() or term in subject.lower()`. -/
def parseInfraRequest (subject body sender : String) : InfraRequest :=
  let priority :=
    if highTerms.any
        (fun t => pyContains (pyLower body) t || pyContains (pyLower subject) t) then
      "high"
    else if lowTerms.any
        (fun t => pyContains (pyLower body) t || pyContains (pyLower subject) t) then
      "low"
    else "normal"
  let environment :=
    if prodTerms.any
        (fun t => pyContains (pyLower body) t || pyContains (pyLower subject) t) then
      "production"
    else if stagingTerms.any
        (fun t => pyContains (pyLower body) t || pyContains (pyLower subject) t) then
      "staging"
    else "development"
  { title := subject, description := body, requestor_email := sender,
    priority := priority, environment := environment }

/-- A leaf MIME part: its Content-Disposition header value ("" when absent),
its content type, its filename (as `part.get_filename()`, `none` when
absent), the text its payload decodes to, and whether decoding with the
declared charset succeeds (`decodeOk = false` models the decode raising). -/
structure MimePart where
  contentDisposition : String
  contentType : String
  filename : Option String
  raw : String
  decodeOk : Bool
deriving DecidableEq, Repr

/-- A MIME message: either a simple single-part message or a multipart
container with a content type and an ordered list of sub-messages. -/
inductive MimeMsg
  | single : MimePart → MimeMsg
  | multipart : String → List MimeMsg → MimeMsg

/-- One element of `msg.walk()` document order: either a multipart
container (skipped by the extractor after its content type is read) or a
leaf part. -/
inductive WalkItem
  | container : String → WalkItem
  | leaf : MimePart → WalkItem

mutual

/-- `Message.walk()` document order: the message itself first, then each
sub-part recursively (depth-first, pre-order). -/
def walkMsg : MimeMsg → List WalkItem
  | .single p => [.leaf p]
  | .multipart ct parts => .container ct :: walkList parts

def walkList : List MimeMsg → List WalkItem
  | [] => []
  | m :: ms => walkMsg m ++ walkList ms

end

/-- An attachment descriptor collected by `_extract_email_content`. -/
structure AttachmentInfo where
  filename : String
  contentType : String
  data : String
  size : Nat
deriving DecidableEq, Repr

/-- The triple `(body, content_type, attachments)` returned by
`_extract_email_content`. -/
structure ExtractResult where
  body : String
  contentType : String
  attachments : List AttachmentInfo
deriving DecidableEq, Repr

/-- The content-type-to-extension table of `_get_extension`
(email_processor.py:161-183); unknown types map to ".bin". -/
def getExtension (ct : String) : String :=
  let extensionMap : List (String × String) :=
    [("text/plain", ".txt"), ("text/html", ".html"),
     ("application/json", ".json"), ("application/pdf", ".pdf"),
     ("image/jpeg", ".jpg"), ("image/png", ".png"), ("image/gif", ".gif"),
     ("application/msword", ".doc"),
     ("application/vnd.openxmlformats-officedocument.wordprocessingml.document", ".docx"),
     ("application/vnd.ms-excel", ".xls"),
     ("application/vnd.openxmlformats-officedocument.spreadsheetml.sheet", ".xlsx"),
     ("application/vnd.ms-powerpoint", ".ppt"),
     ("application/vnd.openxmlformats-officedocument.presentationml.presentation", ".pptx"),
     ("application/zip", ".zip"), ("application/x-rar-compressed", ".rar"),
     ("application/x-gzip", ".gz"), ("application/x-tar", ".tar")]
  ((extensionMap.lookup ct).getD ".bin")

/-- One iteration of the `for part in msg.walk()` loop of
`_extract_email_content` (email_processor.py:107-145). `content_type` is
assigned from the part at the top of every iteration; multipart containers
are then skipped; parts whose disposition contains "attachment" are
collected as attachments; otherwise, if no body has been selected yet
(Python truthiness: `not body`, i.e. `body = ""`) and the part is
text/plain or text/html, its decoded payload becomes the body (HTML
converted by `htmlConv`); a decode failure leaves the body unchanged.
`genId` models `generate_id()` as a supply indexed by how many attachments
have been collected. -/
def extractStep (htmlConv : String → String) (genId : Nat → String)
    (st : ExtractResult) (item : WalkItem) : ExtractResult :=
  match item with
  | .container ct => { st with contentType := ct }
  | .leaf p =>
    let ct := p.contentType
    let st := { st with contentType := ct }
    if pyContains (pyLower p.contentDisposition) "attachment" then
      let fname :=
        match p.filename with
        | some f =>
          if f == "" then
            "attachment_" ++ genId st.attachments.length ++ getExtension ct
          else f
        | none => "attachment_" ++ genId st.attachments.length ++ getExtension ct
      { st with attachments :=
          st.attachments ++ [⟨fname, ct, p.raw, p.raw.length⟩] }
    else if st.body == "" && (ct == "text/plain" || ct == "text/html") then
      if p.decodeOk then
        let b := if ct == "text/html" then htmlConv p.raw else p.raw
        { st with body := b }
      else st
    else st

/-- `EmailProcessor._extract_email_content` (email_processor.py:98-159).
Multipart messages fold `extractStep` over the walk order starting from
`("", "text/plain", [])`; simple messages decode their single payload (body
stays "" and content type "text/plain" when decoding raises), converting
HTML to text. The HTML-to-text converter is the `htmlConv` parameter. -/
def extractEmailContent (htmlConv : String → String) (genId : Nat → String) :
    MimeMsg → ExtractResult
  | .multipart ct parts =>
    (walkMsg (.multipart ct parts)).foldl (extractStep htmlConv genId)
      ⟨"", "text/plain", []⟩
  | .single p =>
    if p.decodeOk then
      let b := if p.contentType == "text/html" then htmlConv p.raw else p.raw
      ⟨b, p.contentType, []⟩
    else ⟨"", "text/plain", []⟩

/-- The multipart message of the repository's own test fixture
`multipart_email_message`: a text/plain part followed by a text/html part. -/
def mpPlainThenHtml : MimeMsg :=
  .multipart "multipart/mixed"
    [ .single ⟨"", "text/plain", none, "This is the plain text version", true⟩,
      .single ⟨"", "text/html", none, "<p>This is the HTML version</p>", true⟩ ]

/-- Lifecycle statuses of an `EmailRecord` (`EmailStatus` in the source
models): RECEIVED → PROCESSED | FAILED for inbound, PENDING → SENT | FAILED
for outbound. -/
inductive EmailStatus
  | received
  | processed
  | failed
  | pending
  | sent
deriving DecidableEq, Repr

/-- The dictionary returned by the infrastructure API's
`create_infrastructure_request`; every key is read with `.get`, so each
field is optional. -/
structure ApiResponse where
  id : Option String
  title : Option String
  description : Option String
  status : Option String
  priority : Option String
  environment : Option String
  created_at : Option String
deriving DecidableEq, Repr

/-- The persisted email record (`Email` model), restricted to the fields
the processor reads or writes. `metaInfraRequestId`/`metaApiResponse`
flatten the two metadata keys `_handle_infra_request` sets. -/
structure EmailRec where
  messageId : String
  inReplyTo : Option String
  references : String
  sender : String
  recipients : List String
  subject : String
  body : String
  contentType : String
  status : EmailStatus
  emailType : EmailType
  error : Option String
  processedAt : Option Nat
  metaInfraRequestId : Option (Option String)
  metaApiResponse : Option ApiResponse
deriving DecidableEq, Repr

/-- The template context built by `_send_confirmation_email`
(email_processor.py:380-389). -/
structure ConfirmContext where
  request_id : String
  title : String
  description : String
  status : String
  priority : String
  environment : String
  created_at : String
  user_email : String
deriving DecidableEq, Repr

/-- `EmailProcessor._send_confirmation_email` (email_processor.py:372-397):
builds the context from the API response, then fetches and renders the
template (`notifyRender`, combining `get_template` and `render`; an
`.error` models either call raising). EVERY exception is caught and only
logged, so this function is total and returns whether the notification was
rendered; it never re-raises. `nowStr` models `datetime.utcnow().isoformat()`. -/
def sendConfirmationEmail
    (notifyRender : ConfirmContext → Except String (String × String))
    (nowStr : String) (e : EmailRec) (resp : ApiResponse) : Bool :=
  let ctx : ConfirmContext :=
    { request_id := resp.id.getD "", title := resp.title.getD "",
      description := resp.description.getD "",
      status := resp.status.getD "received",
      priority := resp.priority.getD "normal",
      environment := resp.environment.getD "development",
      created_at := resp.created_at.getD nowStr,
      user_email := e.sender }
  match notifyRender ctx with
  | .ok _ => true
  | .error _ => false

/-- Outcome of one category handler: the (possibly mutated) record, the
text of the exception it re-raised (`none` when it completed), whether the
infra-request confirmation notification was attempted, and how many times
the infrastructure API was called. -/
structure HandlerResult where
  record : EmailRec
  raised : Option String
  infraConfirmAttempted : Bool
  apiCalls : Nat
deriving DecidableEq, Repr

/-- `EmailProcessor._handle_infra_request` (email_processor.py:285-309):
parse the request, call the API (`api rd e.sender`; `.error msg` models the
call raising with text `msg`, which the handler logs and re-raises), on
success record the response id and full response in the metadata, then send
the confirmation (whose own failures are swallowed inside
`sendConfirmationEmail`). The API is called exactly once — no retry. -/
def handleInfraRequest
    (api : InfraRequest → String → Except String ApiResponse)
    (notifyRender : ConfirmContext → Except String (String × String))
    (nowStr : String) (e : EmailRec) (body : String) : HandlerResult :=
  let rd := parseInfraRequest e.subject body e.sender
  match api rd e.sender with
  | .error msg => ⟨e, some msg, false, 1⟩
  | .ok resp =>
    let e2 := { e with metaInfraRequestId := some resp.id,
                       metaApiResponse := some resp }
    let _sent := sendConfirmationEmail notifyRender nowStr e2 resp
    ⟨e2, none, true, 1⟩

/-- `_send_unsubscribe_confirmation` (email_processor.py:399-415): renders
the unsubscribe template for the sender; every exception is caught and
logged, never re-raised. -/
def sendUnsubscribeConfirmation
    (unotify : String → Except String (String × String)) (e : EmailRec) : Bool :=
  match unotify e.sender with
  | .ok _ => true
  | .error _ => false

/-- `_handle_unsubscribe` (email_processor.py:352-358): log and send the
unsubscribe confirmation (failures swallowed); it does not call the
infrastructure API or the infra confirmation. -/
def handleUnsubscribe
    (unotify : String → Except String (String × String)) (e : EmailRec) :
    HandlerResult :=
  let _sent := sendUnsubscribeConfirmation unotify e
  ⟨e, none, false, 0⟩

/-- `_handle_standard_email` (email_processor.py:360-370): log-only. -/
def handleStandardEmail (e : EmailRec) : HandlerResult :=
  ⟨e, none, false, 0⟩

/-- Result of `_route_email`: the record after the in-memory mutations, plus
the observables needed by the claims. -/
structure RouteResult where
  record : EmailRec
  infraConfirmAttempted : Bool
  apiCalls : Nat
deriving DecidableEq, Repr

/-- The tail of `_route_email` (email_processor.py:274-282): if the handler
completed, set status PROCESSED; if it raised, set status FAILED and store
the exception text; then assign `processed_at = now` UNCONDITIONALLY (the
source has no already-set guard). -/
def routeFinish (hr : HandlerResult) (now : Nat) : RouteResult :=
  let e2 :=
    match hr.raised with
    | none => { hr.record with status := .processed }
    | some msg => { hr.record with status := .failed, error := some msg }
  ⟨{ e2 with processedAt := some now }, hr.infraConfirmAttempted, hr.apiCalls⟩

/-- `EmailProcessor._route_email` (email_processor.py:261-283): dispatch on
the category (INFRA_REQUEST, UNSUBSCRIBE, all others standard), then
`routeFinish`; the final `db.commit()` is modelled at the `process_email`
level, where its exception is caught. -/
def routeEmail
    (api : InfraRequest → String → Except String ApiResponse)
    (notifyRender : ConfirmContext → Except String (String × String))
    (unotify : String → Except String (String × String))
    (nowStr : String) (now : Nat)
    (e : EmailRec) (etype : EmailType) (body : String) : RouteResult :=
  let hr :=
    match etype with
    | .infra_request => handleInfraRequest api notifyRender nowStr e body
    | .unsubscribe => handleUnsubscribe unotify e
    | _ => handleStandardEmail e
  routeFinish hr now

/-- An API client stub whose `create_infrastructure_request` always raises. -/
def apiFailStub : InfraRequest → String → Except String ApiResponse :=
  fun _ _ => .error "API connection refused"

/-- A sample successful API response. -/
def sampleResp : ApiResponse :=
  ⟨some "req_123", some "Test Request", none, some "received", none, none, none⟩

/-- An API client stub whose call always succeeds with `sampleResp`. -/
def apiOkStub : InfraRequest → String → Except String ApiResponse :=
  fun _ _ => .ok sampleResp

/-- A notification/template service stub that always renders. -/
def notifyOkStub : ConfirmContext → Except String (String × String) :=
  fun _ => .ok ("Request received", "Your request was received")

/-- A notification/template service stub that always raises. -/
def notifyFailStub : ConfirmContext → Except String (String × String) :=
  fun _ => .error "template render failed"

/-- An unsubscribe-notification stub that always renders. -/
def unotifyOkStub : String → Except String (String × String) :=
  fun _ => .ok ("Unsubscribed", "You have been unsubscribed")

/-- A concrete freshly-received infrastructure-request record. -/
def recInfra : EmailRec :=
  ⟨"m1", none, "", "user@example.com", ["infra@text2iac.local"],
   "Infra request: new server", "please build a server", "text/plain",
   .received, .infra_request, none, none, none, none⟩

/-- A concrete freshly-received standard record. -/
def recStd : EmailRec :=
  ⟨"m2", none, "", "user@example.com", ["info@text2iac.local"],
   "hello", "just a note", "text/plain",
   .received, .standard, none, none, none, none⟩

/-- Python's `str.strip()` with no arguments, over the ASCII whitespace
characters Python treats as strippable. -/
def pyStrip (s : String) : String :=
  let ws := fun c : Char =>
    c == ' ' || c == '\t' || c == '\n' || c == '\r' || c == '\x0B' || c == '\x0C'
  String.mk (((s.toList.dropWhile ws).reverse.dropWhile ws).reverse)

/-- Python's `str.endswith(suffix)`. -/
def pyEndsWith (s suffix : String) : Bool :=
  suffix.toList.isSuffixOf s.toList

/-- The headers `process_email` reads from the parsed message: Subject,
Message-ID, In-Reply-To and References, each `none` when absent. -/
structure InMsgHeaders where
  subjectHdr : Option String
  messageIdHdr : Option String
  inReplyToHdr : Option String
  referencesHdr : Option String
deriving DecidableEq, Repr

/-- The observable outcome of one `process_email` call: its return value
(`none` models Python's `return None`), the in-memory state of the record
it created (`none` when record creation itself failed, so no record
exists), and whether the infra confirmation notification was attempted. -/
structure ProcOutcome where
  ret : Option EmailRec
  finalRec : Option EmailRec
  infraConfirmAttempted : Bool
deriving DecidableEq, Repr

/-- The `EmailCreate` construction of `process_email`
(email_processor.py:41-70): subject defaults to "No Subject" then is
stripped, message id defaults to a generated id, references defaults to "",
status starts RECEIVED, category from the classifier. -/
def buildEmailRecord (genMsgId : String) (hdrs : InMsgHeaders)
    (er : ExtractResult) (sender : String) (recipients : List String) :
    EmailRec :=
  let subject := pyStrip (hdrs.subjectHdr.getD "No Subject")
  { messageId := hdrs.messageIdHdr.getD genMsgId,
    inReplyTo := hdrs.inReplyToHdr,
    references := hdrs.referencesHdr.getD "",
    sender := sender, recipients := recipients,
    subject := subject, body := er.body, contentType := er.contentType,
    status := .received,
    emailType := determineEmailType subject er.body sender recipients,
    error := none, processedAt := none,
    metaInfraRequestId := none, metaApiResponse := none }

/-- `EmailProcessor.process_email` (email_processor.py:33-96). The fallible
persistence steps are oracles: `saveResult` models `_save_email`'s commit,
`attachCommit` the commit of `_process_attachments` (invoked only when
there are attachments; per-attachment construction failures are swallowed
inside its loop), `routeCommit` the commit at the end of `_route_email`.
An `.error m` models the call raising with text `m`; the outer `except`
then marks the already-created in-memory record FAILED with `m` (returning
`none`), while a save failure means no record was ever bound, so nothing
is marked and `None` is returned. No exception ever escapes: the function
is total. -/
def processEmail
    (htmlConv : String → String) (genId : Nat → String) (genMsgId : String)
    (api : InfraRequest → String → Except String ApiResponse)
    (notifyRender : ConfirmContext → Except String (String × String))
    (unotify : String → Except String (String × String))
    (saveResult attachCommit routeCommit : Except String Unit)
    (nowStr : String) (now : Nat)
    (hdrs : InMsgHeaders) (msg : MimeMsg)
    (sender : String) (recipients : List String) : ProcOutcome :=
  let er := extractEmailContent htmlConv genId msg
  let rec0 := buildEmailRecord genMsgId hdrs er sender recipients
  match saveResult with
  | .error _ => ⟨none, none, false⟩
  | .ok _ =>
    match (if er.attachments.isEmpty then Except.ok () else attachCommit) with
    | .error m =>
      ⟨none, some { rec0 with status := .failed, error := some m }, false⟩
    | .ok _ =>
      let rr := routeEmail api notifyRender unotify nowStr now rec0
        rec0.emailType er.body
      match routeCommit with
      | .error m =>
        ⟨none, some { rr.record with status := .failed, error := some m },
         rr.infraConfirmAttempted⟩
      | .ok _ => ⟨some rr.record, some rr.record, rr.infraConfirmAttempted⟩

/-- Headers of a message with no Subject header. -/
def hdrsNoSubject : InMsgHeaders := ⟨none, some "<mid-1@example.com>", none, none⟩

/-- The multipart message of the repository's test fixture
`email_with_attachment`: a text body plus one attachment part whose
disposition marks it as an attachment. -/
def mpWithAttachment : MimeMsg :=
  .multipart "multipart/mixed"
    [ .single ⟨"", "text/plain", none, "Email with attachment", true⟩,
      .single ⟨"attachment; filename=test.txt", "text/plain",
        some "test.txt", "This is a test attachment", true⟩ ]

/-- `EmailHandler.handle_DATA` (email_monitor.py:49-68): parse the raw
message bytes (`parseOk = false` models `email.message_from_bytes` or the
session setup raising), run `process_email` (which is total: it catches
every exception internally), and reply "250 Message accepted for
delivery"; only an exception escaping the `try` — i.e. the parse/setup
step — produces the "451" temporary-failure reply. -/
def handleDATA (parseOk : Bool)
    (htmlConv : String → String) (genId : Nat → String) (genMsgId : String)
    (api : InfraRequest → String → Except String ApiResponse)
    (notifyRender : ConfirmContext → Except String (String × String))
    (unotify : String → Except String (String × String))
    (saveResult attachCommit routeCommit : Except String Unit)
    (nowStr : String) (now : Nat)
    (hdrs : InMsgHeaders) (msg : MimeMsg)
    (sender : String) (recipients : List String) :
    String × Option ProcOutcome :=
  if parseOk then
    ("250 Message accepted for delivery",
     some (processEmail htmlConv genId genMsgId api notifyRender unotify
       saveResult attachCommit routeCommit nowStr now hdrs msg sender
       recipients))
  else
    ("451 Requested action aborted: local error in processing", none)

/-- `EmailHandler.handle_RCPT` (email_monitor.py:43-47): a proposed
recipient is rejected with the permanent 550 reply unless the address ends
with "@" followed by the configured accepting domain; an accepted address
is appended to the envelope's recipient list. No EmailRecord is involved:
records are created only during `handle_DATA`. -/
def handleRCPT (emailDomain : String) (rcptTos : List String)
    (address : String) : String × List String :=
  if !(pyEndsWith address ("@" ++ emailDomain)) then
    ("550 Not relaying to that domain", rcptTos)
  else
    ("250 OK", rcptTos ++ [address])

/-- The mail library invokes `handle_RCPT` once per proposed recipient of a
session; a rejection reply affects only that RCPT command, so the session
goes on with the recipient list it had. This folds `handleRCPT` over the
proposed recipients, collecting the per-recipient replies. -/
def rcptSession (emailDomain : String) (addrs : List String) :
    List String × List String :=
  addrs.foldl
    (fun acc a =>
      let r := handleRCPT emailDomain acc.2 a
      (acc.1 ++ [r.1], r.2))
    ([], [])

theorem any_ci_two (s b : String) : ∀ (l : List String),
    (∀ p ∈ l, pyLower p = p) →
    (l.any fun p => containsCI s p || containsCI b p)
      = l.any fun p => pyContains (pyLower s) p || pyContains (pyLower b) p
  | [], _ => rfl
  | a :: t, h => by
    have ha : pyLower a = a := h a (List.mem_cons_self a t)
    have ht := any_ci_two s b t (fun p hp => h p (List.mem_cons_of_mem a hp))
    rw [List.any_cons, List.any_cons, ht]
    simp only [containsCI, ha]

theorem any_ci_one (s : String) : ∀ (l : List String),
    (∀ p ∈ l, pyLower p = p) →
    (l.any fun p => containsCI s p) = l.any fun p => pyContains (pyLower s) p
  | [], _ => rfl
  | a :: t, h => by
    have ha : pyLower a = a := h a (List.mem_cons_self a t)
    have ht := any_ci_one s t (fun p hp => h p (List.mem_cons_of_mem a hp))
    rw [List.any_cons, List.any_cons, ht]
    simp only [containsCI, ha]

/-- C1: the classifier assigns exactly one `EmailType` as a function of
(subject, body, sender, recipients); it agrees with the spec's ordered
first-match case-insensitive rules (`specClassify`); it never returns
OUTGOING; and subject "Auto: Out of Office" is AUTO_REPLY regardless of
the body (and of sender/recipients). Purity and single-valuedness hold
because `determineEmailType` is a total Lean function. -/
theorem C1_classifier_matches_spec (s b snd : String) (r : List String) :
    determineEmailType s b snd r = specClassify s b ∧
    determineEmailType s b snd r ≠ EmailType.outgoing ∧
    ∀ b2, determineEmailType "Auto: Out of Office" b2 snd r
      = EmailType.auto_reply := by
  have hauto : ∀ p ∈ autoReplyIndicators, pyLower p = p := by decide
  have hbounce : ∀ p ∈ bounceIndicators, pyLower p = p := by decide
  have hinfra : ∀ p ∈ infraIndicators, pyLower p = p := by decide
  have hu : pyLower "unsubscribe" = "unsubscribe" := by decide
  have ho : pyLower "opt-out" = "opt-out" := by decide
  refine ⟨?_, ?_, ?_⟩
  · unfold determineEmailType specClassify
    rw [any_ci_two s b autoReplyIndicators hauto,
        any_ci_one s bounceIndicators hbounce,
        any_ci_one s infraIndicators hinfra]
    simp only [containsCI, hu, ho]
  · unfold determineEmailType
    dsimp only
    split
    · exact fun h => by cases h
    · split
      · exact fun h => by cases h
      · split
        · exact fun h => by cases h
        · split
          · exact fun h => by cases h
          · exact fun h => by cases h
  · intro b2
    unfold determineEmailType
    have hcond : (autoReplyIndicators.any fun i =>
        pyContains ((pyLower "Auto: Out of Office")) i
          || pyContains (pyLower b2) i) = true := by
      refine List.any_eq_true.mpr ⟨"out of office", by decide, ?_⟩
      have hs : pyContains ((pyLower "Auto: Out of Office")) "out of office"
          = true := by decide
      simp [hs]
    simp only [hcond]
    rfl

theorem any_ci_swap (s b : String) : ∀ (l : List String),
    (∀ p ∈ l, pyLower p = p) →
    (l.any fun p => containsCI s p || containsCI b p)
      = l.any fun p => pyContains (pyLower b) p || pyContains (pyLower s) p
  | [], _ => rfl
  | a :: t, h => by
    have ha : pyLower a = a := h a (List.mem_cons_self a t)
    have ht := any_ci_swap s b t (fun p hp => h p (List.mem_cons_of_mem a hp))
    rw [List.any_cons, List.any_cons, ht]
    simp only [containsCI, ha, Bool.or_comm]

/-- C7: the Request Parser returns the subject as title, the body as
description and the sender as requestor verbatim; priority is "high" /
"low" / "normal" and environment "production" / "staging" / "development"
by the spec's ordered case-insensitive keyword buckets (high before low,
production before staging); and subject "[URGENT] Need production database"
yields priority "high" and environment "production" for every body. -/
theorem C7_parse_infra_request (subject body sender : String) :
    (parseInfraRequest subject body sender).title = subject ∧
    (parseInfraRequest subject body sender).description = body ∧
    (parseInfraRequest subject body sender).requestor_email = sender ∧
    (parseInfraRequest subject body sender).priority =
      (if highTerms.any (fun t => containsCI subject t || containsCI body t) then
        "high"
      else if lowTerms.any (fun t => containsCI subject t || containsCI body t) then
        "low"
      else "normal") ∧
    (parseInfraRequest subject body sender).environment =
      (if prodTerms.any (fun t => containsCI subject t || containsCI body t) then
        "production"
      else if stagingTerms.any (fun t => containsCI subject t || containsCI body t) then
        "staging"
      else "development") ∧
    (parseInfraRequest "[URGENT] Need production database" body sender).priority
      = "high" ∧
    (parseInfraRequest "[URGENT] Need production database" body sender).environment
      = "production" := by
  have hhigh : ∀ p ∈ highTerms, pyLower p = p := by decide
  have hlow : ∀ p ∈ lowTerms, pyLower p = p := by decide
  have hprod : ∀ p ∈ prodTerms, pyLower p = p := by decide
  have hstag : ∀ p ∈ stagingTerms, pyLower p = p := by decide
  refine ⟨rfl, rfl, rfl, ?_, ?_, ?_, ?_⟩
  · unfold parseInfraRequest
    rw [any_ci_swap subject body highTerms hhigh,
        any_ci_swap subject body lowTerms hlow]
  · unfold parseInfraRequest
    rw [any_ci_swap subject body prodTerms hprod,
        any_ci_swap subject body stagingTerms hstag]
  · unfold parseInfraRequest
    have hc : (highTerms.any fun t =>
        pyContains (pyLower body) t
          || pyContains (pyLower "[URGENT] Need production database") t) = true := by
      refine List.any_eq_true.mpr ⟨"urgent", by decide, ?_⟩
      have hs : pyContains (pyLower "[URGENT] Need production database") "urgent"
          = true := by decide
      simp [hs]
    simp only [hc]
    rfl
  · unfold parseInfraRequest
    have hc : (prodTerms.any fun t =>
        pyContains (pyLower body) t
          || pyContains (pyLower "[URGENT] Need production database") t) = true := by
      refine List.any_eq_true.mpr ⟨"prod", by decide, ?_⟩
      have hs : pyContains (pyLower "[URGENT] Need production database") "prod"
          = true := by decide
      simp [hs]
    simp only [hc]
    rfl

/-- C2 (code bug): on a multipart message with a text/plain part before a
text/html part, the body is the plain-text part's content (selected first,
never overwritten, no HTML markup) — but the returned content type is
"text/html", the type of the LAST walked part, not of the selected body
part, because the loop reassigns `content_type` on every iteration. The
repository's own test `test_extract_email_content_multipart` expects
"text/plain" here. The identity function stands for the HTML converter; it
is irrelevant because the HTML part is never converted. -/
theorem C2_content_type_of_last_part :
    extractEmailContent (fun h => h) (fun _ => "gen") mpPlainThenHtml
      = ⟨"This is the plain text version", "text/html", []⟩ ∧
    ("text/html" : String) ≠ "text/plain" := by
  exact ⟨rfl, by decide⟩

/-- C3 counterexample: for an INFRA_REQUEST whose confirmation-notification
step raises (the template service fails after a successful API call), the
record ends PROCESSED with no error — not FAILED — because
`_send_confirmation_email` catches and only logs its own exceptions. This
refutes the claim that an exception anywhere in the path, including the
confirmation-notification step, transitions the record to FAILED. -/
theorem C3_notify_exception_not_failed :
    (routeEmail apiOkStub notifyFailStub unotifyOkStub "t0" 1 recInfra
        .infra_request "please build a server").record.status
      = EmailStatus.processed ∧
    (routeEmail apiOkStub notifyFailStub unotifyOkStub "t0" 1 recInfra
        .infra_request "please build a server").record.error = none := by
  exact ⟨rfl, rfl⟩

/-- C3 amended: on the infrastructure-request path, an exception from the
request parsing or the external API call (the embedded parse is total, so
the API call is the raising site before the notification) is caught by
`_route_email` and moves the record to FAILED with the exception text as
its error, with the API called exactly once (no retry); but an exception
inside the confirmation-notification step is swallowed by
`_send_confirmation_email`, and the record is marked PROCESSED with its
error field untouched. -/
theorem C3_infra_exception_handling
    (api : InfraRequest → String → Except String ApiResponse)
    (notifyRender : ConfirmContext → Except String (String × String))
    (unotify : String → Except String (String × String))
    (nowStr : String) (now : Nat) (e : EmailRec) (body msg : String)
    (resp : ApiResponse) :
    (api (parseInfraRequest e.subject body e.sender) e.sender = .error msg →
      (routeEmail api notifyRender unotify nowStr now e .infra_request
          body).record.status = EmailStatus.failed ∧
      (routeEmail api notifyRender unotify nowStr now e .infra_request
          body).record.error = some msg ∧
      (routeEmail api notifyRender unotify nowStr now e .infra_request
          body).apiCalls = 1) ∧
    (api (parseInfraRequest e.subject body e.sender) e.sender = .ok resp →
      (routeEmail api notifyRender unotify nowStr now e .infra_request
          body).record.status = EmailStatus.processed ∧
      (routeEmail api notifyRender unotify nowStr now e .infra_request
          body).record.error = e.error ∧
      (routeEmail api notifyRender unotify nowStr now e .infra_request
          body).apiCalls = 1) := by
  constructor
  · intro h
    simp only [routeEmail, handleInfraRequest]
    rw [h]
    exact ⟨rfl, rfl, rfl⟩
  · intro h
    simp only [routeEmail, handleInfraRequest]
    rw [h]
    exact ⟨rfl, rfl, rfl⟩

/-- Witness for `C3_infra_exception_handling` at concrete inputs: a failing
API call yields FAILED with the captured text, a succeeding API call with a
failing notifier yields PROCESSED. -/
theorem C3_infra_exception_handling_witness :
    ((routeEmail apiFailStub notifyOkStub unotifyOkStub "t0" 1 recInfra
        .infra_request "please build a server").record.status
      = EmailStatus.failed ∧
     (routeEmail apiFailStub notifyOkStub unotifyOkStub "t0" 1 recInfra
        .infra_request "please build a server").record.error
      = some "API connection refused" ∧
     (routeEmail apiFailStub notifyOkStub unotifyOkStub "t0" 1 recInfra
        .infra_request "please build a server").apiCalls = 1) ∧
    ((routeEmail apiOkStub notifyFailStub unotifyOkStub "t0" 1 recInfra
        .infra_request "please build a server").record.status
      = EmailStatus.processed) :=
  ⟨(C3_infra_exception_handling apiFailStub notifyOkStub unotifyOkStub "t0" 1
      recInfra "please build a server" "API connection refused" sampleResp).1
      rfl,
   ((C3_infra_exception_handling apiOkStub notifyFailStub unotifyOkStub "t0" 1
      recInfra "please build a server" "API connection refused" sampleResp).2
      rfl).1⟩

/-- C4: when the external infrastructure-API call raises, the record ends
FAILED, its error field is populated with the exception text (in particular
it is not `none`), and the confirmation notification is never attempted. -/
theorem C4_api_failure_no_confirmation
    (api : InfraRequest → String → Except String ApiResponse)
    (notifyRender : ConfirmContext → Except String (String × String))
    (unotify : String → Except String (String × String))
    (nowStr : String) (now : Nat) (e : EmailRec) (body msg : String)
    (h : api (parseInfraRequest e.subject body e.sender) e.sender
      = .error msg) :
    (routeEmail api notifyRender unotify nowStr now e .infra_request
        body).record.status = EmailStatus.failed ∧
    (routeEmail api notifyRender unotify nowStr now e .infra_request
        body).record.error = some msg ∧
    (routeEmail api notifyRender unotify nowStr now e .infra_request
        body).record.error ≠ none ∧
    (routeEmail api notifyRender unotify nowStr now e .infra_request
        body).infraConfirmAttempted = false := by
  simp only [routeEmail, handleInfraRequest]
  rw [h]
  refine ⟨rfl, rfl, fun hc => ?_, rfl⟩
  exact Option.noConfusion hc

/-- Witness for `C4_api_failure_no_confirmation` at a concrete record and a
concrete failing API client. -/
theorem C4_api_failure_witness :
    (routeEmail apiFailStub notifyOkStub unotifyOkStub "t0" 2 recInfra
        .infra_request "please build a server").record.status
      = EmailStatus.failed ∧
    (routeEmail apiFailStub notifyOkStub unotifyOkStub "t0" 2 recInfra
        .infra_request "please build a server").record.error
      = some "API connection refused" ∧
    (routeEmail apiFailStub notifyOkStub unotifyOkStub "t0" 2 recInfra
        .infra_request "please build a server").record.error ≠ none ∧
    (routeEmail apiFailStub notifyOkStub unotifyOkStub "t0" 2 recInfra
        .infra_request "please build a server").infraConfirmAttempted
      = false :=
  C4_api_failure_no_confirmation apiFailStub notifyOkStub unotifyOkStub "t0" 2
    recInfra "please build a server" "API connection refused" rfl

/-- C5 counterexample: invoking `_route_email` a second time on an
already-PROCESSED record overwrites the processed timestamp — it is
reassigned on every invocation, not "set exactly once, only if not already
set". The first run stamps 5; the second run restamps 7. -/
theorem C5_processed_at_overwritten :
    (routeEmail apiOkStub notifyOkStub unotifyOkStub "t" 5 recStd .standard
        "just a note").record.status = EmailStatus.processed ∧
    (routeEmail apiOkStub notifyOkStub unotifyOkStub "t" 5 recStd .standard
        "just a note").record.processedAt = some 5 ∧
    (routeEmail apiOkStub notifyOkStub unotifyOkStub "t" 7
        (routeEmail apiOkStub notifyOkStub unotifyOkStub "t" 5 recStd
          .standard "just a note").record .standard
        "just a note").record.processedAt = some 7 ∧
    (some 7 : Option Nat) ≠ some 5 := by
  exact ⟨rfl, rfl, rfl, by decide⟩

/-- C5 amended: `_route_email` never sets the status to RECEIVED (the
invocation ends PROCESSED or FAILED, so a second invocation on a PROCESSED
record cannot regress it to RECEIVED), and the processed timestamp is
assigned exactly once per invocation, unconditionally — regardless of
whether the handler run succeeds or fails, and overwriting any value a
previous invocation stored (there is no already-set guard in the source). -/
theorem C5_route_no_regression_timestamp_each_run
    (api : InfraRequest → String → Except String ApiResponse)
    (notifyRender : ConfirmContext → Except String (String × String))
    (unotify : String → Except String (String × String))
    (nowStr : String) (now : Nat) (e : EmailRec) (etype : EmailType)
    (body : String) :
    (routeEmail api notifyRender unotify nowStr now e etype
        body).record.status ≠ EmailStatus.received ∧
    (routeEmail api notifyRender unotify nowStr now e etype
        body).record.processedAt = some now := by
  unfold routeEmail
  cases h : (match etype with
      | EmailType.infra_request =>
          handleInfraRequest api notifyRender nowStr e body
      | EmailType.unsubscribe => handleUnsubscribe unotify e
      | _ => handleStandardEmail e).raised with
  | none =>
    constructor
    · simp only [routeFinish, h]
      exact fun hc => by cases hc
    · simp only [routeFinish, h]
  | some msg =>
    constructor
    · simp only [routeFinish, h]
      exact fun hc => by cases hc
    · simp only [routeFinish, h]

theorem handleInfraRequest_subject
    (api : InfraRequest → String → Except String ApiResponse)
    (nr : ConfirmContext → Except String (String × String))
    (ns : String) (e : EmailRec) (b : String) :
    (handleInfraRequest api nr ns e b).record.subject = e.subject := by
  simp only [handleInfraRequest]
  cases api (parseInfraRequest e.subject b e.sender) e.sender <;> rfl

theorem routeFinish_subject (hr : HandlerResult) (now : Nat) :
    (routeFinish hr now).record.subject = hr.record.subject := by
  obtain ⟨rec, raised, n, a⟩ := hr
  cases raised <;> rfl

theorem routeEmail_subject
    (api : InfraRequest → String → Except String ApiResponse)
    (nr : ConfirmContext → Except String (String × String))
    (un : String → Except String (String × String))
    (ns : String) (now : Nat) (e : EmailRec) (ty : EmailType) (b : String) :
    (routeEmail api nr un ns now e ty b).record.subject = e.subject := by
  cases ty <;>
    simp only [routeEmail] <;>
    rw [routeFinish_subject] <;>
    first
    | rfl
    | exact handleInfraRequest_subject api nr ns e b

/-- C10: the subject stored on every record `process_email` creates is the
Subject header value with leading and trailing whitespace stripped, and in
particular, when the message has no Subject header, it is exactly the
literal "No Subject". -/
theorem C10_subject_default
    (htmlConv : String → String) (genId : Nat → String) (genMsgId : String)
    (api : InfraRequest → String → Except String ApiResponse)
    (notifyRender : ConfirmContext → Except String (String × String))
    (unotify : String → Except String (String × String))
    (saveResult attachCommit routeCommit : Except String Unit)
    (nowStr : String) (now : Nat)
    (hdrs : InMsgHeaders) (msg : MimeMsg)
    (sender : String) (recipients : List String) :
    ((processEmail htmlConv genId genMsgId api notifyRender unotify
        saveResult attachCommit routeCommit nowStr now hdrs msg sender
        recipients).finalRec.map EmailRec.subject
      = (processEmail htmlConv genId genMsgId api notifyRender unotify
          saveResult attachCommit routeCommit nowStr now hdrs msg sender
          recipients).finalRec.map
          fun _ => pyStrip (hdrs.subjectHdr.getD "No Subject")) ∧
    (hdrs.subjectHdr = none →
      (processEmail htmlConv genId genMsgId api notifyRender unotify
          saveResult attachCommit routeCommit nowStr now hdrs msg sender
          recipients).finalRec.map EmailRec.subject
        = (processEmail htmlConv genId genMsgId api notifyRender unotify
            saveResult attachCommit routeCommit nowStr now hdrs msg sender
            recipients).finalRec.map fun _ => "No Subject") := by
  have hns : pyStrip "No Subject" = "No Subject" := by decide
  have hmain : (processEmail htmlConv genId genMsgId api notifyRender unotify
      saveResult attachCommit routeCommit nowStr now hdrs msg sender
      recipients).finalRec.map EmailRec.subject
    = (processEmail htmlConv genId genMsgId api notifyRender unotify
        saveResult attachCommit routeCommit nowStr now hdrs msg sender
        recipients).finalRec.map
        fun _ => pyStrip (hdrs.subjectHdr.getD "No Subject") := by
    simp only [processEmail]
    cases saveResult with
    | error m => rfl
    | ok u =>
      cases hatt : (if (extractEmailContent htmlConv genId
          msg).attachments.isEmpty then Except.ok () else attachCommit) with
      | error m => rfl
      | ok u2 =>
        cases routeCommit with
        | error m =>
          exact congrArg some (routeEmail_subject api notifyRender unotify
            nowStr now (buildEmailRecord genMsgId hdrs
              (extractEmailContent htmlConv genId msg) sender recipients)
            (buildEmailRecord genMsgId hdrs
              (extractEmailContent htmlConv genId msg) sender
              recipients).emailType
            (extractEmailContent htmlConv genId msg).body)
        | ok u3 =>
          exact congrArg some (routeEmail_subject api notifyRender unotify
            nowStr now (buildEmailRecord genMsgId hdrs
              (extractEmailContent htmlConv genId msg) sender recipients)
            (buildEmailRecord genMsgId hdrs
              (extractEmailContent htmlConv genId msg) sender
              recipients).emailType
            (extractEmailContent htmlConv genId msg).body)
  refine ⟨hmain, fun h => ?_⟩
  rw [hmain, h]
  simp only [Option.getD_none, hns]

/-- Witness for `C10_subject_default`: a concrete run on a subject-less
message creates a record (the outcome holds a record) and its stored
subject is the literal "No Subject". -/
theorem C10_subject_default_witness :
    ((processEmail (fun h => h) (fun _ => "gen") "gen-id" apiOkStub
        notifyOkStub unotifyOkStub (Except.ok ()) (Except.ok ())
        (Except.ok ()) "t" 1 hdrsNoSubject mpPlainThenHtml
        "user@example.com" ["info@text2iac.local"]).finalRec.isSome
      = true) ∧
    ((processEmail (fun h => h) (fun _ => "gen") "gen-id" apiOkStub
        notifyOkStub unotifyOkStub (Except.ok ()) (Except.ok ())
        (Except.ok ()) "t" 1 hdrsNoSubject mpPlainThenHtml
        "user@example.com" ["info@text2iac.local"]).finalRec.map
        EmailRec.subject
      = (processEmail (fun h => h) (fun _ => "gen") "gen-id" apiOkStub
          notifyOkStub unotifyOkStub (Except.ok ()) (Except.ok ())
          (Except.ok ()) "t" 1 hdrsNoSubject mpPlainThenHtml
          "user@example.com" ["info@text2iac.local"]).finalRec.map
          fun _ => "No Subject") :=
  ⟨rfl,
   (C10_subject_default (fun h => h) (fun _ => "gen") "gen-id" apiOkStub
      notifyOkStub unotifyOkStub (Except.ok ()) (Except.ok ())
      (Except.ok ()) "t" 1 hdrsNoSubject mpPlainThenHtml
      "user@example.com" ["info@text2iac.local"]).2 rfl⟩

/-- C9: `process_email` degrades gracefully at every fallible stage. If the
save of the new record raises, the call returns no record and no record
exists (the message is reported unprocessed upstream). If a later commit
raises (attachment processing or the routing commit), the already-created
in-memory record is marked FAILED with the captured exception text and the
call returns `none`. When no commit raises, the call returns the routed
record. In every case the embedded function returns normally — no
exception propagates out of `process_email`. -/
theorem C9_process_email_degrades
    (htmlConv : String → String) (genId : Nat → String) (genMsgId : String)
    (api : InfraRequest → String → Except String ApiResponse)
    (notifyRender : ConfirmContext → Except String (String × String))
    (unotify : String → Except String (String × String))
    (saveResult attachCommit routeCommit : Except String Unit)
    (nowStr : String) (now : Nat)
    (hdrs : InMsgHeaders) (msg : MimeMsg)
    (sender : String) (recipients : List String) (m : String) :
    (saveResult = .error m →
      processEmail htmlConv genId genMsgId api notifyRender unotify
        saveResult attachCommit routeCommit nowStr now hdrs msg sender
        recipients = ⟨none, none, false⟩) ∧
    ((extractEmailContent htmlConv genId msg).attachments.isEmpty = false →
      saveResult = .ok () → attachCommit = .error m →
      (processEmail htmlConv genId genMsgId api notifyRender unotify
          saveResult attachCommit routeCommit nowStr now hdrs msg sender
          recipients).ret = none ∧
      (processEmail htmlConv genId genMsgId api notifyRender unotify
          saveResult attachCommit routeCommit nowStr now hdrs msg sender
          recipients).finalRec.map EmailRec.status
        = some EmailStatus.failed ∧
      (processEmail htmlConv genId genMsgId api notifyRender unotify
          saveResult attachCommit routeCommit nowStr now hdrs msg sender
          recipients).finalRec.map EmailRec.error = some (some m)) ∧
    ((extractEmailContent htmlConv genId msg).attachments.isEmpty = true →
      saveResult = .ok () → routeCommit = .error m →
      (processEmail htmlConv genId genMsgId api notifyRender unotify
          saveResult attachCommit routeCommit nowStr now hdrs msg sender
          recipients).ret = none ∧
      (processEmail htmlConv genId genMsgId api notifyRender unotify
          saveResult attachCommit routeCommit nowStr now hdrs msg sender
          recipients).finalRec.map EmailRec.status
        = some EmailStatus.failed ∧
      (processEmail htmlConv genId genMsgId api notifyRender unotify
          saveResult attachCommit routeCommit nowStr now hdrs msg sender
          recipients).finalRec.map EmailRec.error = some (some m)) ∧
    (saveResult = .ok () → attachCommit = .ok () → routeCommit = .ok () →
      (processEmail htmlConv genId genMsgId api notifyRender unotify
          saveResult attachCommit routeCommit nowStr now hdrs msg sender
          recipients).ret
        = some (routeEmail api notifyRender unotify nowStr now
            (buildEmailRecord genMsgId hdrs
              (extractEmailContent htmlConv genId msg) sender recipients)
            (buildEmailRecord genMsgId hdrs
              (extractEmailContent htmlConv genId msg) sender
              recipients).emailType
            (extractEmailContent htmlConv genId msg).body).record) := by
  refine ⟨?_, ?_, ?_, ?_⟩
  · intro hs
    simp only [processEmail]
    rw [hs]
  · intro ha hs hc
    simp only [processEmail]
    rw [hs, ha]
    simp only [Bool.false_eq_true, if_false, hc]
    exact ⟨trivial, rfl, rfl⟩
  · intro ha hs hc
    simp only [processEmail]
    rw [hs, ha]
    simp only [if_true, hc]
    exact ⟨trivial, rfl, rfl⟩
  · intro hs hat hc
    simp only [processEmail]
    rw [hs]
    cases hatt : (if (extractEmailContent htmlConv genId
        msg).attachments.isEmpty then Except.ok () else attachCommit) with
    | error m2 =>
      exfalso
      by_cases hemp : (extractEmailContent htmlConv genId
          msg).attachments.isEmpty
      · rw [if_pos hemp] at hatt
        cases hatt
      · rw [if_neg hemp, hat] at hatt
        cases hatt
    | ok u =>
      rw [hc]

/-- Witness for `C9_process_email_degrades` at concrete inputs: a failing
save returns no record at all; a failing attachment commit leaves a FAILED
in-memory record; a failing routing commit captures the commit error text. -/
theorem C9_process_email_degrades_witness :
    (processEmail (fun h => h) (fun _ => "gen") "gid" apiOkStub notifyOkStub
        unotifyOkStub (Except.error "db down") (Except.ok ()) (Except.ok ())
        "t" 1 hdrsNoSubject mpPlainThenHtml "user@example.com"
        ["info@text2iac.local"] = ⟨none, none, false⟩) ∧
    ((processEmail (fun h => h) (fun _ => "gen") "gid" apiOkStub notifyOkStub
        unotifyOkStub (Except.ok ()) (Except.error "attach commit failed")
        (Except.ok ()) "t" 1 hdrsNoSubject mpWithAttachment
        "user@example.com" ["info@text2iac.local"]).finalRec.map
        EmailRec.status = some EmailStatus.failed) ∧
    ((processEmail (fun h => h) (fun _ => "gen") "gid" apiOkStub notifyOkStub
        unotifyOkStub (Except.ok ()) (Except.ok ())
        (Except.error "route commit failed") "t" 1 hdrsNoSubject
        mpPlainThenHtml "user@example.com"
        ["info@text2iac.local"]).finalRec.map EmailRec.error
      = some (some "route commit failed")) :=
  ⟨(C9_process_email_degrades (fun h => h) (fun _ => "gen") "gid" apiOkStub
      notifyOkStub unotifyOkStub (Except.error "db down") (Except.ok ())
      (Except.ok ()) "t" 1 hdrsNoSubject mpPlainThenHtml "user@example.com"
      ["info@text2iac.local"] "db down").1 rfl,
   ((C9_process_email_degrades (fun h => h) (fun _ => "gen") "gid" apiOkStub
      notifyOkStub unotifyOkStub (Except.ok ())
      (Except.error "attach commit failed") (Except.ok ()) "t" 1
      hdrsNoSubject mpWithAttachment "user@example.com"
      ["info@text2iac.local"] "attach commit failed").2.1 rfl rfl
      rfl).2.1,
   ((C9_process_email_degrades (fun h => h) (fun _ => "gen") "gid" apiOkStub
      notifyOkStub unotifyOkStub (Except.ok ()) (Except.ok ())
      (Except.error "route commit failed") "t" 1 hdrsNoSubject
      mpPlainThenHtml "user@example.com" ["info@text2iac.local"]
      "route commit failed").2.2.1 rfl rfl rfl).2.2⟩

/-- C6 counterexample: a transient store failure (the save commit raises
"db down") yields the SUCCESS reply "250 Message accepted for delivery",
not a temporary-failure code — and here no record exists at all, so the
failure is not recorded on any EmailRecord either. `process_email`
swallows the exception and returns `None`, so `handle_DATA`'s 451 branch
is unreachable for store/API failures. -/
theorem C6_store_failure_gets_success_reply :
    (handleDATA true (fun h => h) (fun _ => "gen") "gid" apiOkStub
        notifyOkStub unotifyOkStub (Except.error "db down") (Except.ok ())
        (Except.ok ()) "t" 1 hdrsNoSubject mpPlainThenHtml
        "user@example.com" ["info@text2iac.local"]).1
      = "250 Message accepted for delivery" ∧
    (handleDATA true (fun h => h) (fun _ => "gen") "gid" apiOkStub
        notifyOkStub unotifyOkStub (Except.error "db down") (Except.ok ())
        (Except.ok ()) "t" 1 hdrsNoSubject mpPlainThenHtml
        "user@example.com" ["info@text2iac.local"]).2
      = some ⟨none, none, false⟩ ∧
    ("250 Message accepted for delivery" : String)
      ≠ "451 Requested action aborted: local error in processing" := by
  exact ⟨rfl, rfl, by decide⟩

/-- C6 amended: the DATA-stage reply of `handle_DATA` is the success code
"250 Message accepted for delivery" whenever the raw message parses —
including when a transient store or API failure occurs inside processing,
because `process_email` catches every exception and returns `None` instead
of re-raising; the temporary-failure reply "451 Requested action aborted:
local error in processing" is produced only when the parse/setup step
itself raises. The failure IS still recorded on the in-memory EmailRecord
(FAILED with the captured diagnostic text) whenever the record was created
before the failing step, as in the routing-commit case below. -/
theorem C6_reply_and_record
    (parseOk : Bool)
    (htmlConv : String → String) (genId : Nat → String) (genMsgId : String)
    (api : InfraRequest → String → Except String ApiResponse)
    (notifyRender : ConfirmContext → Except String (String × String))
    (unotify : String → Except String (String × String))
    (saveResult attachCommit routeCommit : Except String Unit)
    (nowStr : String) (now : Nat)
    (hdrs : InMsgHeaders) (msg : MimeMsg)
    (sender : String) (recipients : List String) (m : String) :
    (parseOk = true →
      (handleDATA parseOk htmlConv genId genMsgId api notifyRender unotify
          saveResult attachCommit routeCommit nowStr now hdrs msg sender
          recipients).1 = "250 Message accepted for delivery") ∧
    (parseOk = false →
      (handleDATA parseOk htmlConv genId genMsgId api notifyRender unotify
          saveResult attachCommit routeCommit nowStr now hdrs msg sender
          recipients).1
        = "451 Requested action aborted: local error in processing") ∧
    (parseOk = true → saveResult = .ok () →
      (extractEmailContent htmlConv genId msg).attachments.isEmpty = true →
      routeCommit = .error m →
      (handleDATA parseOk htmlConv genId genMsgId api notifyRender unotify
          saveResult attachCommit routeCommit nowStr now hdrs msg sender
          recipients).2.map
          (fun o => (o.finalRec.map EmailRec.status,
                     o.finalRec.map EmailRec.error))
        = some (some EmailStatus.failed, some (some m))) := by
  refine ⟨?_, ?_, ?_⟩
  · intro hp
    simp only [handleDATA, hp, if_true]
  · intro hp
    simp only [handleDATA, hp, Bool.false_eq_true, if_false]
  · intro hp hs hemp hc
    simp only [handleDATA, hp, if_true, Option.map_some']
    simp only [processEmail]
    rw [hs, hemp]
    simp only [if_true, hc]
    rfl

/-- Witness for `C6_reply_and_record` at concrete inputs: a parsing failure
yields the 451 temporary-failure reply; a parsed message whose routing
commit raises still gets the 250 success reply while its in-memory record
is FAILED with the commit error text. -/
theorem C6_reply_and_record_witness :
    ((handleDATA false (fun h => h) (fun _ => "gen") "gid" apiOkStub
        notifyOkStub unotifyOkStub (Except.ok ()) (Except.ok ())
        (Except.ok ()) "t" 1 hdrsNoSubject mpPlainThenHtml
        "user@example.com" ["info@text2iac.local"]).1
      = "451 Requested action aborted: local error in processing") ∧
    ((handleDATA true (fun h => h) (fun _ => "gen") "gid" apiOkStub
        notifyOkStub unotifyOkStub (Except.ok ()) (Except.ok ())
        (Except.error "db commit failed") "t" 1 hdrsNoSubject
        mpPlainThenHtml "user@example.com" ["info@text2iac.local"]).1
      = "250 Message accepted for delivery") ∧
    ((handleDATA true (fun h => h) (fun _ => "gen") "gid" apiOkStub
        notifyOkStub unotifyOkStub (Except.ok ()) (Except.ok ())
        (Except.error "db commit failed") "t" 1 hdrsNoSubject
        mpPlainThenHtml "user@example.com" ["info@text2iac.local"]).2.map
        (fun o => (o.finalRec.map EmailRec.status,
                   o.finalRec.map EmailRec.error))
      = some (some EmailStatus.failed, some (some "db commit failed"))) :=
  ⟨(C6_reply_and_record false (fun h => h) (fun _ => "gen") "gid" apiOkStub
      notifyOkStub unotifyOkStub (Except.ok ()) (Except.ok ())
      (Except.ok ()) "t" 1 hdrsNoSubject mpPlainThenHtml "user@example.com"
      ["info@text2iac.local"] "x").2.1 rfl,
   (C6_reply_and_record true (fun h => h) (fun _ => "gen") "gid" apiOkStub
      notifyOkStub unotifyOkStub (Except.ok ()) (Except.ok ())
      (Except.error "db commit failed") "t" 1 hdrsNoSubject mpPlainThenHtml
      "user@example.com" ["info@text2iac.local"] "db commit failed").1 rfl,
   (C6_reply_and_record true (fun h => h) (fun _ => "gen") "gid" apiOkStub
      notifyOkStub unotifyOkStub (Except.ok ()) (Except.ok ())
      (Except.error "db commit failed") "t" 1 hdrsNoSubject mpPlainThenHtml
      "user@example.com" ["info@text2iac.local"]
      "db commit failed").2.2 rfl rfl rfl rfl⟩

/-- C8: a proposed recipient is accepted (reply "250 OK", address appended
to the envelope recipients) iff its address ends with "@" + the configured
domain; otherwise that recipient alone is rejected with the permanent
"550" reply and the envelope is untouched (no record exists at this stage —
`handleRCPT` only carries the recipient list); and after a rejected
recipient the session still accepts a later matching one. -/
theorem C8_rcpt_domain_policy (domain : String) (tos : List String)
    (addr bad good : String) :
    (((handleRCPT domain tos addr).1 = "250 OK" ∧
      (handleRCPT domain tos addr).2 = tos ++ [addr]) ↔
      pyEndsWith addr ("@" ++ domain) = true) ∧
    (pyEndsWith addr ("@" ++ domain) = false →
      handleRCPT domain tos addr = ("550 Not relaying to that domain", tos)) ∧
    (pyEndsWith bad ("@" ++ domain) = false →
      pyEndsWith good ("@" ++ domain) = true →
      rcptSession domain [bad, good]
        = (["550 Not relaying to that domain", "250 OK"], [good])) := by
  refine ⟨⟨?_, ?_⟩, ?_, ?_⟩
  · rintro ⟨h1, _⟩
    cases hcase : pyEndsWith addr ("@" ++ domain) with
    | true => rfl
    | false =>
      rw [handleRCPT, hcase] at h1
      simp only [Bool.not_false, eq_self_iff_true, if_true] at h1
      exact absurd h1 (by decide)
  · intro h
    rw [handleRCPT, h]
    simp only [Bool.not_true, Bool.false_eq_true, if_false]
    exact ⟨trivial, trivial⟩
  · intro h
    rw [handleRCPT, h]
    simp only [Bool.not_false, eq_self_iff_true, if_true]
  · intro hb hg
    simp only [rcptSession, List.foldl, handleRCPT, hb, hg,
      Bool.not_false, Bool.not_true, eq_self_iff_true, if_true,
      Bool.false_eq_true, if_false]
    rfl

/-- Witness for `C8_rcpt_domain_policy` with domain "example.com": the
out-of-domain recipient "user@evil-example.net" is rejected with 550 and
the envelope untouched, the in-domain recipient "user@example.com" is
accepted with 250 OK and appended, and a session proposing the bad then
the good recipient ends with only the good one accepted. -/
theorem C8_rcpt_domain_policy_witness :
    (handleRCPT "example.com" [] "user@evil-example.net"
      = ("550 Not relaying to that domain", [])) ∧
    ((handleRCPT "example.com" [] "user@example.com").1 = "250 OK" ∧
     (handleRCPT "example.com" [] "user@example.com").2
       = [] ++ ["user@example.com"]) ∧
    (rcptSession "example.com" ["user@evil-example.net", "user@example.com"]
      = (["550 Not relaying to that domain", "250 OK"],
         ["user@example.com"])) :=
  ⟨(C8_rcpt_domain_policy "example.com" [] "user@evil-example.net" "x"
      "y").2.1 (by decide),
   (C8_rcpt_domain_policy "example.com" [] "user@example.com" "x" "y").1.mpr
     (by decide),
   (C8_rcpt_domain_policy "example.com" [] "z" "user@evil-example.net"
      "user@example.com").2.2 (by decide) (by decide)⟩
